import Mathlib

/-!
Verification of the reconciliation and provisioning subsystem of the
control-panel backend (FastAPI + Flux/Kubernetes).

The Python source is shallowly embedded:
* strings are lists of Unicode code points (`List Nat`); the helper
  `codes` converts a Lean string literal to its code points;
* Python `str.lower()` is modelled for the ASCII range, which covers every
  literal the classifier compares against;
* the Kubernetes API is modelled as an explicit cluster state (namespaces
  plus HelmRelease objects keyed by `(namespace, name)`); API failures are
  `Except` values;
* the SQLAlchemy session is modelled by returning the list of committed
  record states in commit order.

All definitions follow `app/flux_provisioner.py`,
`app/routers/organizations.py` and `app/routers/restaurants.py`.
-/

namespace ControlPanel

/-- Code points of a string literal (Python `str` as a sequence of code points). -/
def codes (s : String) : List Nat := s.data.map Char.toNat

/-- ASCII lowercasing of one code point: models Python `str.lower()` on the
ASCII inputs used by the classifier. -/
def lowerN (n : Nat) : Nat := if 65 ≤ n ∧ n ≤ 90 then n + 32 else n

/-- Lowercase a whole string (code-point list). -/
def lowerCodes (s : List Nat) : List Nat := s.map lowerN

/-- `startsWithL needle hay`: `hay` begins with `needle`. -/
def startsWithL : List Nat → List Nat → Bool
  | [], _ => true
  | _ :: _, [] => false
  | a :: as, b :: bs => a = b && startsWithL as bs

/-- Python `needle in hay` substring test (`"" in s` is `True`). -/
def containsSub (needle : List Nat) : List Nat → Bool
  | [] => startsWithL needle []
  | b :: bs => startsWithL needle (b :: bs) || containsSub needle bs

/-- `any(k in hay for k in kws)` over a keyword list. -/
def containsAny (hay : List Nat) (kws : List (List Nat)) : Bool :=
  kws.any fun k => containsSub k hay

/-! ## Cluster observations (`app/flux_provisioner.py`) -/

/-- One entry of `status.conditions` on a HelmRelease; a missing (`None`)
field is the empty string, exactly what `(c.get(...) or "")` produces. -/
structure Condition where
  type_ : List Nat
  status : List Nat
  reason : List Nat
deriving DecidableEq, Repr

/-- One `container_statuses` entry of a pod: its `ready` flag and, when the
container is in a waiting state, `state.waiting.reason`
(`none` covers `state`/`state.waiting`/`reason` being `None`). -/
structure ContainerStatus where
  ready : Bool
  waiting : Option (List Nat)
deriving DecidableEq, Repr

/-- A pod, reduced to its `container_statuses or []` list. -/
def Pod := List ContainerStatus
deriving DecidableEq

/-- `_find_condition(conditions, cond_type)`: first condition whose lowered
type equals the lowered requested type. -/
def findCondition : List Condition → List Nat → Option Condition
  | [], _ => none
  | c :: rest, t =>
    if lowerCodes c.type_ = lowerCodes t then some c else findCondition rest t

/-- `_any_failed_condition(conditions)` from `flux_provisioner.py`. -/
def anyFailedCondition (conditions : List Condition) : Bool :=
  conditions.any fun c =>
    let status := lowerCodes c.status
    let reason := lowerCodes c.reason
    let ctype := lowerCodes c.type_
    containsAny reason [codes "fail", codes "degrad", codes "error"]
    || (ctype = codes "failed" || ctype = codes "degraded")
    || (status = codes "false"
        && containsAny reason
            [codes "installfailed", codes "upgradefailed", codes "reconciliationfailed"])

/-- Waiting reasons treated as terminal failures by both pod-fallback loops. -/
def badWaitingReason (r : List Nat) : Bool :=
  r = codes "CrashLoopBackOff" || r = codes "ErrImagePull"
  || r = codes "ImagePullBackOff" || r = codes "CreateContainerConfigError"
  || r = codes "CreateContainerError"

/-- `any_error` of the pod loop: some container waits with a failure reason. -/
def anyBadPod (pods : List Pod) : Bool :=
  pods.any fun p =>
    p.any fun cs =>
      match cs.waiting with
      | some r => badWaitingReason r
      | none => false

/-- `all_ready` of the pod loop: a pod with no container statuses clears the
flag, otherwise every container must report `ready`. -/
def allReadyPods (pods : List Pod) : Bool :=
  pods.all fun p => !p.isEmpty && p.all (·.ready)

/-- Pod fallback of `get_org_status` (`flux_provisioner.py` lines 120-153). -/
def podFallback (pods : List Pod) : String :=
  if pods.isEmpty then "progressing"
  else if anyBadPod pods then "error"
  else if allReadyPods pods then "running"
  else "progressing"

/-- Keywords whose presence in the Ready reason means "in progress". -/
def kwsProgress : List (List Nat) := [codes "progress", codes "reconcil", codes "pending"]

/-- Keywords whose presence in the Ready reason means "transient, not failure". -/
def kwsTransient : List (List Nat) := [codes "wait", codes "poll", codes "retry"]

/-- HelmRelease-condition part of `get_org_status` (lines 84-110).
`none` means control falls through to the pod fallback, which in the source
happens exactly when no branch `return`s inside the `try` block. -/
def hrClassify (conditions : List Condition) : Option String :=
  let viaReady : Option String :=
    match findCondition conditions (codes "Ready") with
    | some ready =>
      let condStatus := lowerCodes ready.status
      let reason := lowerCodes ready.reason
      if condStatus = codes "true" then some "running"
      else if (condStatus = codes "false" || condStatus = codes "unknown")
              && containsAny reason kwsProgress then some "progressing"
      else if condStatus = codes "false" || condStatus = codes "unknown" then
        some (if containsAny reason kwsTransient then "progressing" else "error")
      else none
    | none => none
  match viaReady with
  | some s => some s
  | none =>
    if anyFailedCondition conditions then some "error"
    else if conditions.isEmpty then none
    else some "progressing"

/-- `get_org_status(namespace)`. The two cluster reads are inputs:
`hrRes` is the HelmRelease read (an `ApiException` status code on failure —
404 and any other code both fall through to the pod check, lines 112-118)
and `podsRes` is the pod listing (any exception yields `"error"`). -/
def get_org_status (hrRes : Except Nat (List Condition))
    (podsRes : Except Unit (List Pod)) : String :=
  let viaHR : Option String :=
    match hrRes with
    | .ok conditions => hrClassify conditions
    | .error _ => none
  match viaHR with
  | some s => s
  | none =>
    match podsRes with
    | .ok pods => podFallback pods
    | .error _ => "error"

/-! ## Domain statuses (`app/models.py`) -/

/-- `OrgStatus` enumeration. -/
inductive OrgStatus where
  | pending | active | suspended | deleted | error
deriving DecidableEq, Repr

/-- `RestaurantStatus` enumeration. -/
inductive RestaurantStatus where
  | pending | active | suspended | deleted | error
deriving DecidableEq, Repr

/-- `_map_cluster_state_to_org_status` (`routers/organizations.py` lines 21-36). -/
def mapClusterStateToOrgStatus (clusterState : String) : OrgStatus :=
  let s := lowerCodes (codes clusterState)
  if s = codes "running" then .active
  else if s = codes "progressing" then .pending
  else if s = codes "error" then .error
  else .suspended

/-! ## Inline restaurant classification (`routers/restaurants.py` lines 61-149)

The loop body assigns the local variable `new_state`; the branch where the
Ready condition's status is neither `true` nor `false` nor `unknown` assigns
nothing, so the classification result is an `Option`: `none` models
`new_state` being left unassigned by the iteration. -/

/-- `any_failed` scan of the restaurant loop (lines 97-104); unlike
`_any_failed_condition` it has no `status == "false"` clause. -/
def anyFailedConditionR (conditions : List Condition) : Bool :=
  conditions.any fun c =>
    let reason := lowerCodes c.reason
    let ctype := lowerCodes c.type_
    containsAny reason [codes "fail", codes "degrad", codes "error"]
    || (ctype = codes "failed" || ctype = codes "degraded")

/-- Pod fallback of the restaurant loop (lines 113-145), identical in shape
to `get_org_status`'s but producing `RestaurantStatus` directly. -/
def podFallbackR (pods : List Pod) : RestaurantStatus :=
  if pods.isEmpty then .pending
  else if anyBadPod pods then .error
  else if allReadyPods pods then .active
  else .pending

/-- One iteration's classification in `list_restaurants`: `hrRes` is the
HelmRelease read (`ApiException` → `hr = None` → pod fallback), `podsRes`
the pod listing (exception → `error`). `none` = `new_state` not assigned. -/
def restaurantClassify (hrRes : Except Nat (List Condition))
    (podsRes : Except Unit (List Pod)) : Option RestaurantStatus :=
  match hrRes with
  | .ok conditions =>
    match findCondition conditions (codes "Ready") with
    | some ready =>
      let condStatus := lowerCodes ready.status
      let reason := lowerCodes ready.reason
      if condStatus = codes "true" then some .active
      else if (condStatus = codes "false" || condStatus = codes "unknown")
              && containsAny reason kwsProgress then some .pending
      else if condStatus = codes "false" || condStatus = codes "unknown" then
        some (if containsAny reason kwsTransient then .pending else .error)
      else none
    | none => some (if anyFailedConditionR conditions then .error else .pending)
  | .error _ =>
    match podsRes with
    | .ok pods => some (podFallbackR pods)
    | .error _ => some .error

/-! ## Batch status synchronisation in the list endpoints -/

/-- One organization row of the `list_organizations` batch together with the
outcome of its cluster query: `.error ()` models `get_org_status(org.name)`
raising, `.ok s` models it returning the cluster-state string `s`. -/
structure OrgRow where
  name : List Nat
  status : OrgStatus
  outcome : Except Unit String
deriving Repr

/-- New status computed for one organization row (lines 60-70): the
`except Exception` handler maps a throwing query to `suspended`. -/
def orgRowNewStatus (row : OrgRow) : OrgStatus :=
  match row.outcome with
  | .ok s => mapClusterStateToOrgStatus s
  | .error _ => OrgStatus.suspended

/-- The status-sync loop of `list_organizations` (lines 52-78): rows with an
empty name are skipped, every other row gets `orgRowNewStatus`; the function
returns the statuses as committed at the end of the batch. No exception
escapes the loop, so the batch always commits. -/
def listOrganizationsSync (rows : List OrgRow) : List OrgStatus :=
  rows.map fun row =>
    if row.name = [] then row.status
    else
      let newStatus := orgRowNewStatus row
      if newStatus ≠ row.status then newStatus else row.status

/-- Outcome of one restaurant row's classification attempt:
`.throws` models an exception caught by the outer `except Exception: continue`
(raised before `new_state` is assigned, e.g. in `get_clients`);
`.classified o` models the `try` body completing with `new_state` assigned to
`o = some s`, or — the unassigned branch of `restaurantClassify` — `o = none`. -/
inductive RestOutcome where
  | throws
  | classified (result : Option RestaurantStatus)
deriving DecidableEq, Repr

/-- One restaurant row of the `list_restaurants` batch. -/
structure RestRow where
  name : List Nat
  hasOrg : Bool
  status : RestaurantStatus
  outcome : RestOutcome
deriving Repr

/-- The status-sync loop of `list_restaurants` (lines 52-157) with the
Python local-variable semantics of `new_state` made explicit: `reg` is the
value `new_state` holds from earlier iterations. Reading `new_state` while it
was never assigned (line 151) raises `NameError`, which escapes the endpoint
before the final commit — modelled as `.error ()`, no statuses persisted;
if a previous iteration assigned it, that stale value is read instead. -/
def listRestaurantsSyncGo : Option RestaurantStatus → List RestRow →
    Except Unit (List RestaurantStatus)
  | _, [] => .ok []
  | reg, row :: rest =>
    if row.name = [] || !row.hasOrg then
      (listRestaurantsSyncGo reg rest).map (row.status :: ·)
    else
      match row.outcome with
      | .throws => (listRestaurantsSyncGo reg rest).map (row.status :: ·)
      | .classified (some s) =>
        (listRestaurantsSyncGo (some s) rest).map
          ((if s ≠ row.status then s else row.status) :: ·)
      | .classified none =>
        match reg with
        | none => .error ()
        | some s =>
          (listRestaurantsSyncGo (some s) rest).map
            ((if s ≠ row.status then s else row.status) :: ·)

/-- The restaurant sync loop, started with `new_state` unbound. -/
def listRestaurantsSync (rows : List RestRow) : Except Unit (List RestaurantStatus) :=
  listRestaurantsSyncGo none rows

/-! ## Provisioning against the cluster (`app/flux_provisioner.py`) -/

/-- The Flux/chart settings read from `app/config.py`. -/
structure Settings where
  CHART_PATH : List Nat
  FLUX_SOURCE_KIND : List Nat
  FLUX_SOURCE_NAME : List Nat
  FLUX_SOURCE_NAMESPACE : List Nat
  BASE_DOMAIN : List Nat
deriving DecidableEq, Repr

/-- The HelmRelease body built by `apply_helmrelease` (lines 19-46),
flattened field by field. -/
structure OrgHRBody where
  apiVersion : List Nat
  kind : List Nat
  metaName : List Nat
  metaNamespace : List Nat
  interval : List Nat
  chartPath : List Nat
  sourceKind : List Nat
  sourceName : List Nat
  sourceNamespace : List Nat
  installRetries : Nat
  upgradeRetries : Nat
  orgName : List Nat
  baseDomain : List Nat
  backendRepo : List Nat
  backendTag : List Nat
  frontendRepo : List Nat
  frontendTag : List Nat
deriving DecidableEq, Repr

/-- The HelmRelease body built by `apply_restaurant_helmrelease`
(lines 193-221); it adds `spec.releaseName` and uses restaurant values. -/
structure RestHRBody where
  apiVersion : List Nat
  kind : List Nat
  metaName : List Nat
  metaNamespace : List Nat
  interval : List Nat
  releaseName : List Nat
  chartPath : List Nat
  sourceKind : List Nat
  sourceName : List Nat
  sourceNamespace : List Nat
  installRetries : Nat
  upgradeRetries : Nat
  restaurantName : List Nat
  baseDomain : List Nat
  backendRepo : List Nat
  backendTag : List Nat
  frontendRepo : List Nat
  frontendTag : List Nat
deriving DecidableEq, Repr

/-- A custom object stored in the cluster: either kind of HelmRelease body. -/
inductive HRObj where
  | org (body : OrgHRBody)
  | rest (body : RestHRBody)
deriving DecidableEq, Repr

/-- Cluster state: the set of namespaces and the custom objects keyed by
`(namespace, name)`. -/
structure Cluster where
  namespaces : List (List Nat)
  objects : List ((List Nat × List Nat) × HRObj)
deriving DecidableEq, Repr

/-- Whether an object with the given `(namespace, name)` key exists. -/
def containsKey (objects : List ((List Nat × List Nat) × HRObj))
    (key : List Nat × List Nat) : Bool :=
  objects.any fun kv => kv.1 = key

/-- Replace every object stored under `key` by `body` (the PATCH body carries
every declared field, so last-writer-wins replacement models the merge). -/
def replaceKey (objects : List ((List Nat × List Nat) × HRObj))
    (key : List Nat × List Nat) (body : HRObj) :
    List ((List Nat × List Nat) × HRObj) :=
  objects.map fun kv => if kv.1 = key then (key, body) else kv

/-- `core.create_namespace`: 409 when the namespace already exists. -/
def create_namespace (c : Cluster) (name : List Nat) : Except Nat Cluster :=
  if name ∈ c.namespaces then .error 409
  else .ok { c with namespaces := name :: c.namespaces }

/-- `ensure_namespace(name)` (lines 7-14): a 409 is swallowed, anything else
propagates. -/
def ensure_namespace (c : Cluster) (name : List Nat) : Except Nat Cluster :=
  match create_namespace c name with
  | .ok c' => .ok c'
  | .error e => if e = 409 then .ok c else .error e

/-- `crd.create_namespaced_custom_object`: 409 when the key is taken. -/
def create_custom_object (c : Cluster) (ns name : List Nat) (body : HRObj) :
    Except Nat Cluster :=
  if containsKey c.objects (ns, name) then .error 409
  else .ok { c with objects := ((ns, name), body) :: c.objects }

/-- `crd.patch_namespaced_custom_object`: 404 when the key is absent. -/
def patch_custom_object (c : Cluster) (ns name : List Nat) (body : HRObj) :
    Except Nat Cluster :=
  if containsKey c.objects (ns, name) then
    .ok { c with objects := replaceKey c.objects (ns, name) body }
  else .error 404

/-- The body dict of `apply_helmrelease(name, backend_tag, frontend_tag)`. -/
def mkOrgBody (st : Settings) (name backendTag frontendTag : List Nat) : OrgHRBody where
  apiVersion := codes "helm.toolkit.fluxcd.io/v2"
  kind := codes "HelmRelease"
  metaName := name
  metaNamespace := name
  interval := codes "5m"
  chartPath := st.CHART_PATH
  sourceKind := st.FLUX_SOURCE_KIND
  sourceName := st.FLUX_SOURCE_NAME
  sourceNamespace := st.FLUX_SOURCE_NAMESPACE
  installRetries := 3
  upgradeRetries := 3
  orgName := name
  baseDomain := st.BASE_DOMAIN
  backendRepo := codes "ghcr.io/zdravkobonev/organization-be"
  backendTag := backendTag
  frontendRepo := codes "ghcr.io/zdravkobonev/organization-fe"
  frontendTag := frontendTag

/-- `apply_helmrelease` (lines 17-59): create, and on a 409 conflict patch the
existing object under the same `(namespace=name, name)` key with the full body. -/
def apply_helmrelease (st : Settings) (c : Cluster)
    (name backendTag frontendTag : List Nat) : Except Nat Cluster :=
  let body := HRObj.org (mkOrgBody st name backendTag frontendTag)
  match create_custom_object c name name body with
  | .ok c' => .ok c'
  | .error e =>
    if e = 409 then patch_custom_object c name name body else .error e

/-- The body dict of `apply_restaurant_helmrelease`. -/
def mkRestBody (st : Settings) (orgNamespace restaurantName backendTag frontendTag : List Nat) :
    RestHRBody where
  apiVersion := codes "helm.toolkit.fluxcd.io/v2"
  kind := codes "HelmRelease"
  metaName := codes "restaurant-" ++ restaurantName
  metaNamespace := orgNamespace
  interval := codes "5m"
  releaseName := codes "restaurant-" ++ restaurantName
  chartPath := codes "charts/restaurant-stack"
  sourceKind := codes "GitRepository"
  sourceName := codes "restaurant-stack"
  sourceNamespace := codes "flux-system"
  installRetries := 3
  upgradeRetries := 3
  restaurantName := restaurantName
  baseDomain := st.BASE_DOMAIN
  backendRepo := codes "ghcr.io/zdravkobonev/restaurant-be"
  backendTag := backendTag
  frontendRepo := codes "ghcr.io/zdravkobonev/restaurant-fe"
  frontendTag := frontendTag

/-- `apply_restaurant_helmrelease` (lines 185-234): same create-or-patch,
keyed by `(org_namespace, "restaurant-" + restaurant_name)`. -/
def apply_restaurant_helmrelease (st : Settings) (c : Cluster)
    (orgNamespace restaurantName backendTag frontendTag : List Nat) : Except Nat Cluster :=
  let releaseName := codes "restaurant-" ++ restaurantName
  let body := HRObj.rest (mkRestBody st orgNamespace restaurantName backendTag frontendTag)
  match create_custom_object c orgNamespace releaseName body with
  | .ok c' => .ok c'
  | .error e =>
    if e = 409 then patch_custom_object c orgNamespace releaseName body else .error e

/-! ## Restaurant name normalization (`routers/restaurants.py` lines 23-27) -/

/-- ASCII whitespace, the code points Python's `\s` matches on this input
(`\t \n \v \f \r` and space). -/
def isWsN (n : Nat) : Bool :=
  n = 9 || n = 10 || n = 11 || n = 12 || n = 13 || n = 32

/-- `str.strip()`: drop leading and trailing whitespace. -/
def stripWs (s : List Nat) : List Nat :=
  ((s.dropWhile isWsN).reverse.dropWhile isWsN).reverse

/-- `re.sub(r"\s+", "-", s)` via a previous-was-whitespace flag: each maximal
whitespace run becomes one `'-'` (code point 45). -/
def wsSubGo : Bool → List Nat → List Nat
  | _, [] => []
  | prevWs, c :: rest =>
    if isWsN c then
      if prevWs then wsSubGo true rest else 45 :: wsSubGo true rest
    else c :: wsSubGo false rest

/-- `re.sub(r"\s+", "-", s)`. -/
def wsSub (s : List Nat) : List Nat := wsSubGo false s

/-- `_normalize_name(name)`: empty stays empty, otherwise strip, collapse
whitespace runs to `-`, lowercase. -/
def normalize_name (name : List Nat) : List Nat :=
  if name = [] then name else lowerCodes (wsSub (stripWs name))

/-! ## Tenant records and CRUD endpoints

The SQLAlchemy rows are embedded as records; each endpoint returns its HTTP
outcome together with the list of states committed to the database in order.
The cluster calls (`ensure_namespace` + `apply...helmrelease`) are abstracted
by the boolean `applyOk` — `true` means they return, `false` means they raise
(which is the only distinction the routers react to) — and the arguments of
the HelmRelease apply call, when one is made, are reported in the result so
that the image tags are visible. -/

/-- HTTP result of an endpoint call. -/
inductive HttpOutcome (α : Type) where
  | ok (body : α)
  | httpError (code : Nat)
deriving DecidableEq, Repr

/-- Persisted `organizations` row (the fields the core touches). -/
structure OrgRec where
  name : List Nat
  version : List Nat
  status : OrgStatus
  is_deleted : Bool
deriving DecidableEq, Repr

/-- `OrganizationCreate` payload. -/
structure OrgCreatePayload where
  name : List Nat
  version : Option (List Nat)
  status : Option OrgStatus
deriving DecidableEq, Repr

/-- `OrganizationUpdate` payload. -/
structure OrgUpdatePayload where
  name : Option (List Nat)
  version : Option (List Nat)
  status : Option OrgStatus
deriving DecidableEq, Repr

/-- Arguments of an `apply_helmrelease(name, be_tag, fe_tag)` call. -/
structure OrgApplyArgs where
  name : List Nat
  backendTag : List Nat
  frontendTag : List Nat
deriving DecidableEq, Repr

/-- `create_organization` (`routers/organizations.py` lines 84-122).
Default version `"1.0.0"`, default status `pending`; the record is committed,
then the namespace is ensured and the HelmRelease applied with the stored
version as both tags; a provisioning failure commits `status = error` and
returns HTTP 500. (The unique-name `IntegrityError` path is not modelled.) -/
def create_organization (p : OrgCreatePayload) (applyOk : Bool) :
    HttpOutcome OrgRec × List OrgRec × Option OrgApplyArgs :=
  let org : OrgRec :=
    { name := p.name
      version := p.version.getD (codes "1.0.0")
      status := p.status.getD OrgStatus.pending
      is_deleted := false }
  let call : OrgApplyArgs := { name := org.name, backendTag := org.version, frontendTag := org.version }
  if applyOk then (.ok org, [org], some call)
  else
    let orgErr := { org with status := OrgStatus.error }
    (.httpError 500, [org, orgErr], some call)

/-- `update_organization` (lines 125-184). Name changes and status changes
are rejected with HTTP 400; a version change commits
`{version := v, status := pending}` and re-applies the HelmRelease with the
new version as both tags; apply failure commits `status = error` and returns
HTTP 500 — the version is not rolled back. -/
def update_organization (r : OrgRec) (p : OrgUpdatePayload) (applyOk : Bool) :
    HttpOutcome OrgRec × List OrgRec × Option OrgApplyArgs :=
  if r.is_deleted then (.httpError 409, [], none)
  else if (match p.name with | some n => n != r.name | none => false) then
    (.httpError 400, [], none)
  else if (match p.status with | some s => s != r.status | none => false) then
    (.httpError 400, [], none)
  else
    match p.version with
    | some v =>
      if v ≠ r.version then
        let r1 : OrgRec := { r with version := v, status := OrgStatus.pending }
        let call : OrgApplyArgs := { name := r1.name, backendTag := v, frontendTag := v }
        if applyOk then (.ok r1, [r1], some call)
        else (.httpError 500, [r1, { r1 with status := OrgStatus.error }], some call)
      else (.ok r, [r], none)
    | none => (.ok r, [r], none)

/-- `delete_organization` (lines 187-204): soft delete, already-deleted rows
are untouched. -/
def delete_organization (r : OrgRec) : OrgRec :=
  if r.is_deleted then r
  else { r with is_deleted := true, status := OrgStatus.deleted }

/-- Row filter of `list_organizations` (line 48): deleted rows are excluded
from the reconciliation batch. -/
def selectOrgRows (orgs : List OrgRec) : List OrgRec :=
  orgs.filter fun o => !o.is_deleted

/-- Persisted `restaurants` row (the fields the core touches). -/
structure RestRec where
  name : List Nat
  organization_name : List Nat
  version : List Nat
  status : RestaurantStatus
  is_deleted : Bool
deriving DecidableEq, Repr

/-- `RestaurantCreate` payload. -/
structure RestCreatePayload where
  name : List Nat
  version : Option (List Nat)
  status : Option RestaurantStatus
deriving DecidableEq, Repr

/-- `RestaurantUpdate` payload. -/
structure RestUpdatePayload where
  name : Option (List Nat)
  status : Option RestaurantStatus
  version : Option (List Nat)
deriving DecidableEq, Repr

/-- Arguments of an `apply_restaurant_helmrelease(org_ns, name, be, fe)` call. -/
structure RestApplyArgs where
  orgNamespace : List Nat
  restaurantName : List Nat
  backendTag : List Nat
  frontendTag : List Nat
deriving DecidableEq, Repr

/-- `create_restaurant` (`routers/restaurants.py` lines 174-216): the owning
organization must exist and not be deleted (404 otherwise); the name is
normalized, version defaults to `"0.0.1"`, status to `pending`; then the
organization's namespace is ensured and the restaurant HelmRelease applied
with the stored version as both tags; failure commits `error` + HTTP 500. -/
def create_restaurant (org : OrgRec) (p : RestCreatePayload) (applyOk : Bool) :
    HttpOutcome RestRec × List RestRec × Option RestApplyArgs :=
  if org.is_deleted then (.httpError 404, [], none)
  else
    let r : RestRec :=
      { name := normalize_name p.name
        organization_name := org.name
        version := p.version.getD (codes "0.0.1")
        status := p.status.getD RestaurantStatus.pending
        is_deleted := false }
    let call : RestApplyArgs :=
      { orgNamespace := org.name, restaurantName := r.name
        backendTag := r.version, frontendTag := r.version }
    if applyOk then (.ok r, [r], some call)
    else
      let rErr := { r with status := RestaurantStatus.error }
      (.httpError 500, [r, rErr], some call)

/-- `update_restaurant` (lines 219-265). A supplied name is normalized and
stored; a version different from the current one sets `status = pending` and
marks a rollout; a supplied status is then stored as given (overwriting the
`pending` just set); the record is committed, and on a rollout the
HelmRelease is re-applied with the new version as both tags — failure
commits `status = error` and returns HTTP 500, keeping the new version. -/
def update_restaurant (r : RestRec) (p : RestUpdatePayload) (applyOk : Bool) :
    HttpOutcome RestRec × List RestRec × Option RestApplyArgs :=
  if r.is_deleted then (.httpError 409, [], none)
  else
    let rA := match p.name with
      | some n => { r with name := normalize_name n }
      | none => r
    let versionChanged : Bool := match p.version with
      | some v => v != r.version
      | none => false
    let rB := match p.version with
      | some v =>
        if v ≠ r.version then { rA with version := v, status := RestaurantStatus.pending }
        else rA
      | none => rA
    let rC := match p.status with
      | some s => { rB with status := s }
      | none => rB
    if versionChanged then
      let call : RestApplyArgs :=
        { orgNamespace := rC.organization_name, restaurantName := rC.name
          backendTag := rC.version, frontendTag := rC.version }
      if applyOk then (.ok rC, [rC], some call)
      else (.httpError 500, [rC, { rC with status := RestaurantStatus.error }], some call)
    else (.ok rC, [rC], none)

/-- `delete_restaurant` (lines 268-283): soft delete, already-deleted rows
are untouched. -/
def delete_restaurant (r : RestRec) : RestRec :=
  if r.is_deleted then r
  else { r with is_deleted := true, status := RestaurantStatus.deleted }

/-- Row selection of `list_restaurants` (lines 40-42): deleted rows are
filtered out of the reconciliation batch only when `include_deleted` is
false (the query default); with `include_deleted=True` they are returned
and reconciled like any other row. -/
def selectRestRows (rs : List RestRec) (includeDeleted : Bool) : List RestRec :=
  if includeDeleted then rs else rs.filter fun r => !r.is_deleted

/-! ## Concrete instances used by witnesses -/

/-- The default Flux settings from `app/config.py`. -/
def defaultSettings : Settings where
  CHART_PATH := codes "charts/org-stack"
  FLUX_SOURCE_KIND := codes "GitRepository"
  FLUX_SOURCE_NAME := codes "org-stack"
  FLUX_SOURCE_NAMESPACE := codes "flux-system"
  BASE_DOMAIN := codes "127.0.0.1.nip.io"

/-- A cluster that already has the `acme` namespace and no objects. -/
def clusterAcme : Cluster where
  namespaces := [codes "acme"]
  objects := []

/-- `clusterAcme` after one `apply_helmrelease("acme", "1.0.0", "1.0.0")`. -/
def clusterAcme1 : Cluster where
  namespaces := [codes "acme"]
  objects := [((codes "acme", codes "acme"),
    HRObj.org (mkOrgBody defaultSettings (codes "acme") (codes "1.0.0") (codes "1.0.0")))]

/-- `clusterAcme1` after one `apply_restaurant_helmrelease("acme", "bistro", ...)`. -/
def clusterAcme2 : Cluster where
  namespaces := [codes "acme"]
  objects := [((codes "acme", codes "restaurant-" ++ codes "bistro"),
    HRObj.rest (mkRestBody defaultSettings (codes "acme") (codes "bistro")
      (codes "0.0.1") (codes "0.0.1"))),
    ((codes "acme", codes "acme"),
    HRObj.org (mkOrgBody defaultSettings (codes "acme") (codes "1.0.0") (codes "1.0.0")))]

/-! ## Lemmas about the object store -/

theorem containsKey_replaceKey (l : List ((List Nat × List Nat) × HRObj))
    (k : List Nat × List Nat) (b : HRObj) :
    containsKey (replaceKey l k b) k = containsKey l k := by
  induction l with
  | nil => rfl
  | cons kv rest ih =>
    by_cases h : kv.1 = k
    · simp [containsKey, replaceKey, h] at ih ⊢
    · simp [containsKey, replaceKey, h] at ih ⊢
      simpa [containsKey, replaceKey] using ih

theorem replaceKey_of_not_contains (l : List ((List Nat × List Nat) × HRObj))
    (k : List Nat × List Nat) (b : HRObj) (h : containsKey l k = false) :
    replaceKey l k b = l := by
  induction l with
  | nil => rfl
  | cons kv rest ih =>
    simp only [containsKey, List.any_cons, Bool.or_eq_false_iff,
      decide_eq_false_iff_not] at h
    simp only [replaceKey, List.map_cons, if_neg h.1]
    show kv :: replaceKey rest k b = kv :: rest
    rw [ih h.2]

theorem replaceKey_cons_self (objs : List ((List Nat × List Nat) × HRObj))
    (k : List Nat × List Nat) (b b' : HRObj) :
    replaceKey ((k, b') :: objs) k b = (k, b) :: replaceKey objs k b := by
  simp [replaceKey]

theorem replaceKey_idem (l : List ((List Nat × List Nat) × HRObj))
    (k : List Nat × List Nat) (b : HRObj) :
    replaceKey (replaceKey l k b) k b = replaceKey l k b := by
  induction l with
  | nil => rfl
  | cons kv rest ih =>
    by_cases h : kv.1 = k <;> simp [replaceKey, h] at ih ⊢ <;>
      simpa [replaceKey] using ih

theorem apply_helmrelease_fixes (st : Settings) (c c' : Cluster)
    (n be fe : List Nat) (h : apply_helmrelease st c n be fe = .ok c') :
    containsKey c'.objects (n, n) = true
    ∧ apply_helmrelease st c' n be fe = .ok c' := by
  by_cases hk : containsKey c.objects (n, n)
  · simp only [apply_helmrelease, create_custom_object, hk, if_true,
      patch_custom_object, reduceIte, Except.ok.injEq] at h
    obtain rfl := h
    constructor
    · simpa [containsKey_replaceKey] using hk
    · simp only [apply_helmrelease, create_custom_object, containsKey_replaceKey,
        hk, if_true, patch_custom_object, reduceIte]
      simp [replaceKey_idem]
  · simp only [apply_helmrelease, create_custom_object, hk, Bool.false_eq_true,
      if_false, Except.ok.injEq] at h
    obtain rfl := h
    refine ⟨by simp [containsKey], ?_⟩
    have hck : containsKey (((n, n), HRObj.org (mkOrgBody st n be fe)) :: c.objects) (n, n) = true := by
      simp [containsKey]
    have hrep : replaceKey (((n, n), HRObj.org (mkOrgBody st n be fe)) :: c.objects) (n, n)
        (HRObj.org (mkOrgBody st n be fe)) = ((n, n), HRObj.org (mkOrgBody st n be fe)) :: c.objects := by
      rw [replaceKey_cons_self,
        replaceKey_of_not_contains c.objects (n, n) _ (by simpa using hk)]
    simp only [apply_helmrelease, create_custom_object, hck, if_true, reduceIte,
      patch_custom_object, hrep]

theorem apply_restaurant_helmrelease_fixes (st : Settings) (c c' : Cluster)
    (ns rn be fe : List Nat)
    (h : apply_restaurant_helmrelease st c ns rn be fe = .ok c') :
    containsKey c'.objects (ns, codes "restaurant-" ++ rn) = true
    ∧ apply_restaurant_helmrelease st c' ns rn be fe = .ok c' := by
  by_cases hk : containsKey c.objects (ns, codes "restaurant-" ++ rn)
  · simp only [apply_restaurant_helmrelease, create_custom_object, hk, if_true,
      patch_custom_object, reduceIte, Except.ok.injEq] at h
    obtain rfl := h
    constructor
    · simpa [containsKey_replaceKey] using hk
    · simp only [apply_restaurant_helmrelease, create_custom_object,
        containsKey_replaceKey, hk, if_true, patch_custom_object, reduceIte]
      simp [replaceKey_idem]
  · simp only [apply_restaurant_helmrelease, create_custom_object, hk,
      Bool.false_eq_true, if_false, Except.ok.injEq] at h
    obtain rfl := h
    refine ⟨by simp [containsKey], ?_⟩
    have hck : containsKey (((ns, codes "restaurant-" ++ rn), HRObj.rest (mkRestBody st ns rn be fe)) :: c.objects) (ns, codes "restaurant-" ++ rn) = true := by
      simp [containsKey]
    have hrep : replaceKey (((ns, codes "restaurant-" ++ rn), HRObj.rest (mkRestBody st ns rn be fe)) :: c.objects) (ns, codes "restaurant-" ++ rn)
        (HRObj.rest (mkRestBody st ns rn be fe)) = ((ns, codes "restaurant-" ++ rn), HRObj.rest (mkRestBody st ns rn be fe)) :: c.objects := by
      rw [replaceKey_cons_self,
        replaceKey_of_not_contains c.objects (ns, codes "restaurant-" ++ rn) _ (by simpa using hk)]
    simp only [apply_restaurant_helmrelease, create_custom_object, hck, if_true,
      reduceIte, patch_custom_object, hrep]

/-- **C1.** Applying the same deployment descriptor twice yields the same
cluster state as applying it once: after a successful `apply_helmrelease`
(resp. `apply_restaurant_helmrelease`) the object exists under its
`(namespace, name)` key, so the second apply's create hits the 409
already-exists conflict and patches the object in place with the full new
body, leaving the cluster state exactly as after the first apply (no
duplicate object); and `ensure_namespace` on an existing namespace is a
no-op success. -/
theorem apply_descriptor_idempotent (st : Settings) (c d c' d' : Cluster)
    (n be fe ns rn rbe rfe : List Nat)
    (hns : n ∈ c.namespaces)
    (h1 : apply_helmrelease st c n be fe = .ok c')
    (h2 : apply_restaurant_helmrelease st d ns rn rbe rfe = .ok d') :
    ensure_namespace c n = .ok c
    ∧ create_custom_object c' n n (HRObj.org (mkOrgBody st n be fe)) = .error 409
    ∧ apply_helmrelease st c' n be fe = .ok c'
    ∧ create_custom_object d' ns (codes "restaurant-" ++ rn)
        (HRObj.rest (mkRestBody st ns rn rbe rfe)) = .error 409
    ∧ apply_restaurant_helmrelease st d' ns rn rbe rfe = .ok d' := by
  obtain ⟨hc1, hc2⟩ := apply_helmrelease_fixes st c c' n be fe h1
  obtain ⟨hd1, hd2⟩ := apply_restaurant_helmrelease_fixes st d d' ns rn rbe rfe h2
  refine ⟨?_, ?_, hc2, ?_, hd2⟩
  · simp [ensure_namespace, create_namespace, hns]
  · simp [create_custom_object, hc1]
  · simp [create_custom_object, hd1]

/-- Witness for C1 at the concrete tenant `acme` / restaurant `bistro`. -/
theorem apply_descriptor_idempotent_witness :
    codes "acme" ∈ clusterAcme.namespaces
    ∧ apply_helmrelease defaultSettings clusterAcme (codes "acme")
        (codes "1.0.0") (codes "1.0.0") = .ok clusterAcme1
    ∧ apply_restaurant_helmrelease defaultSettings clusterAcme1 (codes "acme")
        (codes "bistro") (codes "0.0.1") (codes "0.0.1") = .ok clusterAcme2
    ∧ (ensure_namespace clusterAcme (codes "acme") = .ok clusterAcme
       ∧ create_custom_object clusterAcme1 (codes "acme") (codes "acme")
           (HRObj.org (mkOrgBody defaultSettings (codes "acme") (codes "1.0.0") (codes "1.0.0")))
           = .error 409
       ∧ apply_helmrelease defaultSettings clusterAcme1 (codes "acme")
           (codes "1.0.0") (codes "1.0.0") = .ok clusterAcme1
       ∧ create_custom_object clusterAcme2 (codes "acme")
           (codes "restaurant-" ++ codes "bistro")
           (HRObj.rest (mkRestBody defaultSettings (codes "acme") (codes "bistro")
             (codes "0.0.1") (codes "0.0.1"))) = .error 409
       ∧ apply_restaurant_helmrelease defaultSettings clusterAcme2 (codes "acme")
           (codes "bistro") (codes "0.0.1") (codes "0.0.1") = .ok clusterAcme2) :=
  ⟨by decide, rfl, rfl,
   apply_descriptor_idempotent defaultSettings clusterAcme clusterAcme1 clusterAcme1
     clusterAcme2 (codes "acme") (codes "1.0.0") (codes "1.0.0") (codes "acme")
     (codes "bistro") (codes "0.0.1") (codes "0.0.1") (by decide) rfl rfl⟩

/-! ## C2: per-tenant failure isolation in the batch sync -/

theorem update_if_ne {α : Type} [DecidableEq α] (x y : α) :
    (if x ≠ y then x else y) = x := by
  by_cases h : x = y <;> simp [h]

theorem update_if_eq {α : Type} [DecidableEq α] (x y : α) :
    (if x = y then y else x) = x := by
  by_cases h : x = y
  · rw [if_pos h]; exact h.symm
  · simp [h]

/-- **C2 counterexample.** In `list_organizations` a tenant whose cluster
query throws does *not* retain its prior persisted status: the
`except Exception` handler sets it to `suspended`. Batch of two `pending`
organizations, the first throwing, the second classifying to `running`:
the first is persisted as `suspended`, not left `pending`. -/
theorem org_sync_throw_counterexample :
    listOrganizationsSync
      [⟨codes "alpha", OrgStatus.pending, .error ()⟩,
       ⟨codes "beta", OrgStatus.pending, .ok "running"⟩]
      = [OrgStatus.suspended, OrgStatus.active]
    ∧ OrgStatus.suspended ≠ OrgStatus.pending := by
  decide

/-- **C2 (amended).** A per-tenant cluster-query failure never aborts the
batch, and the healthy tenant is updated to `active` in both list endpoints;
but only `list_restaurants` leaves the throwing tenant's status unchanged
(`continue`), while `list_organizations` persists `suspended` for it. -/
theorem batch_sync_failure_isolation
    (s1 s2 : RestaurantStatus) (t1 t2 : OrgStatus) (nm1 nm2 nm3 nm4 : List Nat)
    (h1 : nm1 ≠ []) (h2 : nm2 ≠ []) (h3 : nm3 ≠ []) (h4 : nm4 ≠ []) :
    listRestaurantsSync
      [⟨nm1, true, s1, .throws⟩, ⟨nm2, true, s2, .classified (some .active)⟩]
      = .ok [s1, RestaurantStatus.active]
    ∧ listOrganizationsSync
      [⟨nm3, t1, .error ()⟩, ⟨nm4, t2, .ok "running"⟩]
      = [OrgStatus.suspended, OrgStatus.active] := by
  constructor
  · simp [listRestaurantsSync, listRestaurantsSyncGo, h1, h2, update_if_ne,
      update_if_eq, Except.map]
  · simp [listOrganizationsSync, orgRowNewStatus, h3, h4, update_if_ne, update_if_eq,
      show mapClusterStateToOrgStatus "running" = OrgStatus.active by decide]

/-- Witness for C2 at a concrete two-tenant batch. -/
theorem batch_sync_failure_isolation_witness :
    codes "r1" ≠ [] ∧ codes "o1" ≠ []
    ∧ listRestaurantsSync
        [⟨codes "r1", true, RestaurantStatus.error, .throws⟩,
         ⟨codes "r2", true, RestaurantStatus.pending, .classified (some .active)⟩]
        = .ok [RestaurantStatus.error, RestaurantStatus.active]
    ∧ listOrganizationsSync
        [⟨codes "o1", OrgStatus.error, .error ()⟩,
         ⟨codes "o2", OrgStatus.pending, .ok "running"⟩]
        = [OrgStatus.suspended, OrgStatus.active] := by
  have h := batch_sync_failure_isolation RestaurantStatus.error RestaurantStatus.pending
    OrgStatus.error OrgStatus.pending (codes "r1") (codes "r2") (codes "o1") (codes "o2")
    (by decide) (by decide) (by decide) (by decide)
  exact ⟨by decide, by decide, h.1, h.2⟩

/-! ## C3: rollout trigger on version change -/

/-- **C3 counterexample.** A restaurant update that changes the version *and*
supplies a status does not first persist `pending`: the caller-supplied
status overwrites it before the single commit, so the record enters the
rollout as `active`, never `pending`. -/
theorem rollout_pending_counterexample :
    (update_restaurant
        ⟨codes "bistro", codes "acme", codes "1.0.0", RestaurantStatus.pending, false⟩
        ⟨none, some RestaurantStatus.active, some (codes "1.1.0")⟩ true).2.1
      = [⟨codes "bistro", codes "acme", codes "1.1.0", RestaurantStatus.active, false⟩]
    ∧ RestaurantStatus.active ≠ RestaurantStatus.pending := by
  decide

/-- **C3 (amended).** On a version change, organization updates — and
restaurant updates whose payload carries no status — first commit the record
with the new version and status `pending`, then apply the descriptor with
the new version as both backend and frontend image tags; if the apply fails,
status `error` is committed and HTTP 500 raised while the version keeps the
new value. (A restaurant payload that also supplies a status persists that
status instead of `pending`.) -/
theorem rollout_trigger_behavior
    (r : OrgRec) (p : OrgUpdatePayload) (v : List Nat)
    (rr : RestRec) (rp : RestUpdatePayload) (rv : List Nat) (applyOk : Bool)
    (hdel : r.is_deleted = false)
    (hname : p.name = none ∨ p.name = some r.name)
    (hstat : p.status = none ∨ p.status = some r.status)
    (hver : p.version = some v) (hne : v ≠ r.version)
    (hrdel : rr.is_deleted = false)
    (hrname : rp.name = none) (hrstat : rp.status = none)
    (hrver : rp.version = some rv) (hrne : rv ≠ rr.version) :
    update_organization r p applyOk =
      (if applyOk then
        (.ok { r with version := v, status := OrgStatus.pending },
         [{ r with version := v, status := OrgStatus.pending }],
         some ⟨r.name, v, v⟩)
       else
        (.httpError 500,
         [{ r with version := v, status := OrgStatus.pending },
          { r with version := v, status := OrgStatus.error }],
         some ⟨r.name, v, v⟩))
    ∧ update_restaurant rr rp applyOk =
      (if applyOk then
        (.ok { rr with version := rv, status := RestaurantStatus.pending },
         [{ rr with version := rv, status := RestaurantStatus.pending }],
         some ⟨rr.organization_name, rr.name, rv, rv⟩)
       else
        (.httpError 500,
         [{ rr with version := rv, status := RestaurantStatus.pending },
          { rr with version := rv, status := RestaurantStatus.error }],
         some ⟨rr.organization_name, rr.name, rv, rv⟩)) := by
  constructor
  · rcases hname with hn | hn <;> rcases hstat with hs | hs <;>
      cases applyOk <;>
        simp [update_organization, hdel, hn, hs, hver, hne]
  · cases applyOk <;>
      simp [update_restaurant, hrdel, hrname, hrstat, hrver, hrne]

/-- Witness for C3 on a failing rollout of `acme` 1.0.0 → 1.1.0 and
restaurant `bistro` 1.0.0 → 2.0.0. -/
theorem rollout_trigger_behavior_witness :
    codes "1.1.0" ≠ codes "1.0.0"
    ∧ update_organization ⟨codes "acme", codes "1.0.0", OrgStatus.active, false⟩
        ⟨none, some (codes "1.1.0"), none⟩ false
      = (.httpError 500,
         [⟨codes "acme", codes "1.1.0", OrgStatus.pending, false⟩,
          ⟨codes "acme", codes "1.1.0", OrgStatus.error, false⟩],
         some ⟨codes "acme", codes "1.1.0", codes "1.1.0"⟩)
    ∧ update_restaurant ⟨codes "bistro", codes "acme", codes "1.0.0", RestaurantStatus.active, false⟩
        ⟨none, none, some (codes "2.0.0")⟩ false
      = (.httpError 500,
         [⟨codes "bistro", codes "acme", codes "2.0.0", RestaurantStatus.pending, false⟩,
          ⟨codes "bistro", codes "acme", codes "2.0.0", RestaurantStatus.error, false⟩],
         some ⟨codes "acme", codes "bistro", codes "2.0.0", codes "2.0.0"⟩) := by
  have h := rollout_trigger_behavior
    ⟨codes "acme", codes "1.0.0", OrgStatus.active, false⟩
    ⟨none, some (codes "1.1.0"), none⟩ (codes "1.1.0")
    ⟨codes "bistro", codes "acme", codes "1.0.0", RestaurantStatus.active, false⟩
    ⟨none, none, some (codes "2.0.0")⟩ (codes "2.0.0") false
    rfl (Or.inl rfl) (Or.inl rfl) rfl (by decide) rfl rfl rfl rfl (by decide)
  exact ⟨by decide, by simpa using h.1, by simpa using h.2⟩

/-! ## C4: Ready=true classification -/

/-- **C4 counterexample.** The classifier uses the *first* condition of type
`Ready`, so a condition set that does contain a Ready condition with status
true is not always classified `active`: with
`[Ready(False, InstallFailed), Ready(True)]` the first match wins and the
result is `error`. -/
theorem ready_true_counterexample :
    (∃ c ∈ ([⟨codes "Ready", codes "False", codes "InstallFailed"⟩,
             ⟨codes "Ready", codes "True", []⟩] : List Condition),
        lowerCodes c.type_ = codes "ready" ∧ lowerCodes c.status = codes "true")
    ∧ get_org_status
        (.ok [⟨codes "Ready", codes "False", codes "InstallFailed"⟩,
              ⟨codes "Ready", codes "True", []⟩]) (.ok [])
      = "error"
    ∧ restaurantClassify
        (.ok [⟨codes "Ready", codes "False", codes "InstallFailed"⟩,
              ⟨codes "Ready", codes "True", []⟩]) (.ok [])
      = some RestaurantStatus.error
    ∧ mapClusterStateToOrgStatus "error" ≠ OrgStatus.active := by
  decide

/-- **C4 (amended).** If the *first* condition of type `Ready` (matched
case-insensitively) has status `true` (case-insensitively), classification
returns `active` — in the provisioner as cluster state `"running"`, mapped to
the `active` domain status, and in the restaurant loop directly — regardless
of all other conditions present. -/
theorem ready_true_yields_active
    (conds : List Condition) (pr pr' : Except Unit (List Pod)) (c : Condition)
    (hfind : findCondition conds (codes "Ready") = some c)
    (hst : lowerCodes c.status = codes "true") :
    get_org_status (.ok conds) pr = "running"
    ∧ mapClusterStateToOrgStatus (get_org_status (.ok conds) pr) = OrgStatus.active
    ∧ restaurantClassify (.ok conds) pr' = some RestaurantStatus.active := by
  have h1 : get_org_status (.ok conds) pr = "running" := by
    simp [get_org_status, hrClassify, hfind, hst]
  refine ⟨h1, by rw [h1]; decide, ?_⟩
  simp [restaurantClassify, hfind, hst]

/-- Witness for C4: a Ready=True condition followed by a failed condition
still classifies as active. -/
theorem ready_true_yields_active_witness :
    findCondition
      [⟨codes "Ready", codes "True", codes "ReconciliationSucceeded"⟩,
       ⟨codes "Released", codes "False", codes "InstallFailed"⟩] (codes "Ready")
      = some ⟨codes "Ready", codes "True", codes "ReconciliationSucceeded"⟩
    ∧ get_org_status
        (.ok [⟨codes "Ready", codes "True", codes "ReconciliationSucceeded"⟩,
              ⟨codes "Released", codes "False", codes "InstallFailed"⟩]) (.ok [])
      = "running"
    ∧ restaurantClassify
        (.ok [⟨codes "Ready", codes "True", codes "ReconciliationSucceeded"⟩,
              ⟨codes "Released", codes "False", codes "InstallFailed"⟩]) (.ok [])
      = some RestaurantStatus.active := by
  have h := ready_true_yields_active
    [⟨codes "Ready", codes "True", codes "ReconciliationSucceeded"⟩,
     ⟨codes "Released", codes "False", codes "InstallFailed"⟩]
    (.ok []) (.ok [])
    ⟨codes "Ready", codes "True", codes "ReconciliationSucceeded"⟩
    (by decide) (by decide)
  exact ⟨by decide, h.1, h.2.2⟩

/-! ## C5: Ready=false/unknown reason heuristic -/

/-- The six reason keywords of the claim: the progress set and the
transient set together. -/
def kwsAll : List (List Nat) := kwsProgress ++ kwsTransient

/-- **C5.** When the Ready condition found has status `false` or `unknown`,
classification returns `pending` (cluster state `"progressing"`) exactly when
the lowered reason contains one of "progress", "reconcil", "pending",
"wait", "poll", "retry", and `error` otherwise; in particular reason
`InstallFailed` yields `error` and `Progressing` yields `pending`. -/
theorem ready_false_reason_classification
    (conds : List Condition) (pr pr' : Except Unit (List Pod)) (c : Condition)
    (hfind : findCondition conds (codes "Ready") = some c)
    (hst : lowerCodes c.status = codes "false" ∨ lowerCodes c.status = codes "unknown") :
    get_org_status (.ok conds) pr =
      (if containsAny (lowerCodes c.reason) kwsAll then "progressing" else "error")
    ∧ restaurantClassify (.ok conds) pr' =
      some (if containsAny (lowerCodes c.reason) kwsAll
            then RestaurantStatus.pending else RestaurantStatus.error) := by
  have hne : ¬(lowerCodes c.status = codes "true") := by
    rcases hst with h | h <;> rw [h] <;> decide
  have hfu : (lowerCodes c.status = codes "false" ∨ lowerCodes c.status = codes "unknown") := hst
  have hAll : containsAny (lowerCodes c.reason) kwsAll
      = (containsAny (lowerCodes c.reason) kwsProgress
         || containsAny (lowerCodes c.reason) kwsTransient) := by
    simp [kwsAll, containsAny]
  have d1 : ¬(codes "false" = codes "true") := by decide
  have d2 : ¬(codes "unknown" = codes "true") := by decide
  constructor
  · by_cases hp : containsAny (lowerCodes c.reason) kwsProgress <;>
      by_cases ht : containsAny (lowerCodes c.reason) kwsTransient <;>
        rcases hfu with h | h <;>
          simp [get_org_status, hrClassify, hfind, hne, h, hp, ht, hAll, d1, d2]
  · by_cases hp : containsAny (lowerCodes c.reason) kwsProgress <;>
      by_cases ht : containsAny (lowerCodes c.reason) kwsTransient <;>
        rcases hfu with h | h <;>
          simp [restaurantClassify, hfind, hne, h, hp, ht, hAll, d1, d2]

/-- Witness for C5 at reasons `InstallFailed` (→ error) and `Progressing`
(→ pending). -/
theorem ready_false_reason_classification_witness :
    findCondition [⟨codes "Ready", codes "False", codes "InstallFailed"⟩] (codes "Ready")
      = some ⟨codes "Ready", codes "False", codes "InstallFailed"⟩
    ∧ get_org_status (.ok [⟨codes "Ready", codes "False", codes "InstallFailed"⟩]) (.ok [])
      = "error"
    ∧ restaurantClassify (.ok [⟨codes "Ready", codes "False", codes "InstallFailed"⟩]) (.ok [])
      = some RestaurantStatus.error
    ∧ get_org_status (.ok [⟨codes "Ready", codes "Unknown", codes "Progressing"⟩]) (.ok [])
      = "progressing"
    ∧ restaurantClassify (.ok [⟨codes "Ready", codes "Unknown", codes "Progressing"⟩]) (.ok [])
      = some RestaurantStatus.pending := by
  have h1 := ready_false_reason_classification
    [⟨codes "Ready", codes "False", codes "InstallFailed"⟩] (.ok []) (.ok [])
    ⟨codes "Ready", codes "False", codes "InstallFailed"⟩ (by decide) (Or.inl (by decide))
  have h2 := ready_false_reason_classification
    [⟨codes "Ready", codes "Unknown", codes "Progressing"⟩] (.ok []) (.ok [])
    ⟨codes "Ready", codes "Unknown", codes "Progressing"⟩ (by decide) (Or.inr (by decide))
  refine ⟨by decide, ?_, ?_, ?_, ?_⟩
  · rw [h1.1]; decide
  · rw [h1.2]; decide
  · rw [h2.1]; decide
  · rw [h2.2]; decide

/-! ## C6: workload-signal fallback -/

/-- **C6.** The pod fallback satisfies: no pods → pending (`"progressing"`);
some container in a terminal-failure waiting state (CrashLoopBackOff,
ErrImagePull, ImagePullBackOff, CreateContainerConfigError,
CreateContainerError) → error; otherwise all pods reporting every container
ready → active (`"running"`), anything else → pending; and a failure of the
fallback query itself → error, in both the provisioner and the restaurant
loop. -/
theorem workload_fallback_classification (pods : List Pod) (e : Nat) :
    (pods = [] → podFallback pods = "progressing" ∧ podFallbackR pods = RestaurantStatus.pending)
    ∧ (pods ≠ [] → anyBadPod pods = true →
        podFallback pods = "error" ∧ podFallbackR pods = RestaurantStatus.error)
    ∧ (pods ≠ [] → anyBadPod pods = false → allReadyPods pods = true →
        podFallback pods = "running" ∧ podFallbackR pods = RestaurantStatus.active)
    ∧ (pods ≠ [] → anyBadPod pods = false → allReadyPods pods = false →
        podFallback pods = "progressing" ∧ podFallbackR pods = RestaurantStatus.pending)
    ∧ (get_org_status (.error e) (.error ()) = "error"
       ∧ restaurantClassify (.error e) (.error ()) = some RestaurantStatus.error)
    ∧ (get_org_status (.error e) (.ok pods) = podFallback pods
       ∧ restaurantClassify (.error e) (.ok pods) = some (podFallbackR pods)) := by
  refine ⟨?_, ?_, ?_, ?_, ?_, ?_⟩
  · intro h; subst h; exact ⟨rfl, rfl⟩
  · intro h1 h2
    simp [podFallback, podFallbackR, h2, List.isEmpty_iff, h1]
  · intro h1 h2 h3
    simp [podFallback, podFallbackR, h2, h3, List.isEmpty_iff, h1]
  · intro h1 h2 h3
    simp [podFallback, podFallbackR, h2, h3, List.isEmpty_iff, h1]
  · exact ⟨rfl, rfl⟩
  · exact ⟨rfl, rfl⟩

/-- Witness for C6: one pod whose container waits with `ImagePullBackOff`
classifies as error. -/
theorem workload_fallback_classification_witness :
    ([[⟨false, some (codes "ImagePullBackOff")⟩]] : List Pod) ≠ []
    ∧ anyBadPod [[⟨false, some (codes "ImagePullBackOff")⟩]] = true
    ∧ podFallback [[⟨false, some (codes "ImagePullBackOff")⟩]] = "error"
    ∧ podFallbackR [[⟨false, some (codes "ImagePullBackOff")⟩]] = RestaurantStatus.error := by
  have h := (workload_fallback_classification
    [[⟨false, some (codes "ImagePullBackOff")⟩]] 500).2.1
    (by decide) (by decide)
  exact ⟨by decide, by decide, h.1, h.2⟩

/-! ## C7: tenant lifecycle invariant -/

/-- **C7 counterexample.** The lifecycle invariant fails on three points.
A tenant is *not* always created with status `pending`, and `active` can be
entered directly from a caller-supplied value: both create endpoints persist
`payload.status` when it is given, and `update_restaurant` stores
`payload.status` as sent. And `deleted` does not exclude the record from all
future reconciliation: `list_restaurants` with `include_deleted=True` puts a
deleted row into the batch, whose sync then overwrites the terminal
`deleted` status with the row's fresh classification. -/
theorem lifecycle_counterexample :
    (create_organization ⟨codes "acme", none, some OrgStatus.active⟩ true).2.1
      = [⟨codes "acme", codes "1.0.0", OrgStatus.active, false⟩]
    ∧ (create_restaurant ⟨codes "acme", codes "1.0.0", OrgStatus.pending, false⟩
        ⟨codes "bistro", none, some RestaurantStatus.active⟩ true).2.1
      = [⟨codes "bistro", codes "acme", codes "0.0.1", RestaurantStatus.active, false⟩]
    ∧ (update_restaurant
        ⟨codes "bistro", codes "acme", codes "1.0.0", RestaurantStatus.pending, false⟩
        ⟨none, some RestaurantStatus.active, none⟩ true).2.1
      = [⟨codes "bistro", codes "acme", codes "1.0.0", RestaurantStatus.active, false⟩]
    ∧ (⟨codes "gone", codes "acme", codes "1.0.0", RestaurantStatus.deleted, true⟩ : RestRec)
        ∈ selectRestRows
            [⟨codes "gone", codes "acme", codes "1.0.0", RestaurantStatus.deleted, true⟩] true
    ∧ listRestaurantsSync
        [⟨codes "gone", true, RestaurantStatus.deleted, .classified (some .active)⟩]
      = .ok [RestaurantStatus.active]
    ∧ OrgStatus.active ≠ OrgStatus.pending
    ∧ RestaurantStatus.active ≠ RestaurantStatus.deleted :=
  ⟨by decide, by decide, by decide, by decide, rfl, by decide, by decide⟩

/-- **C7 (amended).** A tenant (organization or restaurant) created without
a payload status starts as `pending`, but a caller-supplied status in either
create payload — and, for restaurants, in the update payload — is persisted
directly. Organization updates reject any caller status change with HTTP
400, so after creation an organization's status moves to
`active`/`suspended`/`error` only through reconciler or rollout outcomes.
For both kinds, deletion commits `status = deleted` with the `is_deleted`
flag, a deleted record is rejected by the update endpoint (HTTP 409) and
left unchanged by a second delete, and deleted records are excluded from the
reconciliation batch under the list endpoints' default row filter (only
`list_restaurants` called with `include_deleted=True` reconciles them, as
the counterexample shows). -/
theorem lifecycle_invariants
    (p : OrgCreatePayload) (applyOk : Bool) (r : OrgRec) (up : OrgUpdatePayload)
    (s : OrgStatus) (orgs : List OrgRec)
    (rorg : OrgRec) (cp cp2 : RestCreatePayload) (s2 : RestaurantStatus)
    (rr : RestRec) (rp2 : RestUpdatePayload) (rests : List RestRec)
    (hp : p.status = none)
    (hs : up.status = some s) (hne : s ≠ r.status) (hdel : r.is_deleted = false)
    (hro : rorg.is_deleted = false) (hcp : cp.status = none)
    (hcp2 : cp2.status = some s2) (hrr : rr.is_deleted = false) :
    ((create_organization p applyOk).2.1.head?.map OrgRec.status = some OrgStatus.pending)
    ∧ update_organization r up applyOk = (.httpError 400, [], none)
    ∧ (delete_organization r).status = OrgStatus.deleted
    ∧ (delete_organization r).is_deleted = true
    ∧ (∀ rd : OrgRec, rd.is_deleted = true → rd ∉ selectOrgRows orgs)
    ∧ update_organization { r with is_deleted := true } up applyOk
        = (.httpError 409, [], none)
    ∧ delete_organization { r with is_deleted := true } = { r with is_deleted := true }
    ∧ ((create_restaurant rorg cp applyOk).2.1.head?.map RestRec.status
        = some RestaurantStatus.pending)
    ∧ ((create_restaurant rorg cp2 applyOk).2.1.head?.map RestRec.status = some s2)
    ∧ (delete_restaurant rr).status = RestaurantStatus.deleted
    ∧ (delete_restaurant rr).is_deleted = true
    ∧ update_restaurant { rr with is_deleted := true } rp2 applyOk
        = (.httpError 409, [], none)
    ∧ delete_restaurant { rr with is_deleted := true } = { rr with is_deleted := true }
    ∧ (∀ rd : RestRec, rd.is_deleted = true → rd ∉ selectRestRows rests false) := by
  refine ⟨?_, ?_, ?_, ?_, ?_, ?_, ?_, ?_, ?_, ?_, ?_, ?_, ?_, ?_⟩
  · cases applyOk <;> simp [create_organization, hp]
  · rcases hun : up.name with _ | n
    · simp [update_organization, hdel, hun, hs, hne]
    · by_cases hn : n = r.name <;>
        simp [update_organization, hdel, hun, hs, hne, hn]
  · simp [delete_organization, hdel]
  · simp [delete_organization, hdel]
  · intro rd hrd hmem
    rw [selectOrgRows, List.mem_filter] at hmem
    simp [hrd] at hmem
  · simp [update_organization]
  · simp [delete_organization]
  · cases applyOk <;> simp [create_restaurant, hro, hcp]
  · cases applyOk <;> simp [create_restaurant, hro, hcp2]
  · simp [delete_restaurant, hrr]
  · simp [delete_restaurant, hrr]
  · simp [update_restaurant]
  · simp [delete_restaurant]
  · intro rd hrd hmem
    simp only [selectRestRows, Bool.false_eq_true, if_false, List.mem_filter] at hmem
    simp [hrd] at hmem

/-- Witness for C7 at concrete records of both tenant kinds. -/
theorem lifecycle_invariants_witness :
    (OrgStatus.active ≠ OrgStatus.pending)
    ∧ ((create_organization ⟨codes "acme", none, none⟩ true).2.1.head?.map OrgRec.status
        = some OrgStatus.pending)
    ∧ update_organization ⟨codes "acme", codes "1.0.0", OrgStatus.pending, false⟩
        ⟨none, none, some OrgStatus.active⟩ true = (.httpError 400, [], none)
    ∧ (delete_organization ⟨codes "acme", codes "1.0.0", OrgStatus.pending, false⟩).status
        = OrgStatus.deleted
    ∧ (⟨codes "gone", codes "1.0.0", OrgStatus.deleted, true⟩ : OrgRec) ∉
        selectOrgRows [⟨codes "gone", codes "1.0.0", OrgStatus.deleted, true⟩,
                       ⟨codes "acme", codes "1.0.0", OrgStatus.pending, false⟩]
    ∧ ((create_restaurant ⟨codes "acme", codes "1.0.0", OrgStatus.pending, false⟩
          ⟨codes "bistro", none, none⟩ true).2.1.head?.map RestRec.status
        = some RestaurantStatus.pending)
    ∧ ((create_restaurant ⟨codes "acme", codes "1.0.0", OrgStatus.pending, false⟩
          ⟨codes "bistro", none, some RestaurantStatus.suspended⟩ true).2.1.head?.map RestRec.status
        = some RestaurantStatus.suspended)
    ∧ (delete_restaurant
          ⟨codes "bistro", codes "acme", codes "1.0.0", RestaurantStatus.active, false⟩).status
        = RestaurantStatus.deleted
    ∧ update_restaurant
        ⟨codes "bistro", codes "acme", codes "1.0.0", RestaurantStatus.active, true⟩
        ⟨none, some RestaurantStatus.active, none⟩ true
        = (.httpError 409, [], none)
    ∧ delete_restaurant
        ⟨codes "bistro", codes "acme", codes "1.0.0", RestaurantStatus.active, true⟩
        = ⟨codes "bistro", codes "acme", codes "1.0.0", RestaurantStatus.active, true⟩
    ∧ (⟨codes "gone", codes "acme", codes "1.0.0", RestaurantStatus.deleted, true⟩ : RestRec) ∉
        selectRestRows
          [⟨codes "gone", codes "acme", codes "1.0.0", RestaurantStatus.deleted, true⟩,
           ⟨codes "bistro", codes "acme", codes "1.0.0", RestaurantStatus.pending, false⟩]
          false := by
  obtain ⟨h1, h2, h3, _, h5, h6, h7, h8, h9, h10, _, h12, h13, h14⟩ :=
    lifecycle_invariants ⟨codes "acme", none, none⟩ true
      ⟨codes "acme", codes "1.0.0", OrgStatus.pending, false⟩
      ⟨none, none, some OrgStatus.active⟩ OrgStatus.active
      [⟨codes "gone", codes "1.0.0", OrgStatus.deleted, true⟩,
       ⟨codes "acme", codes "1.0.0", OrgStatus.pending, false⟩]
      ⟨codes "acme", codes "1.0.0", OrgStatus.pending, false⟩
      ⟨codes "bistro", none, none⟩
      ⟨codes "bistro", none, some RestaurantStatus.suspended⟩ RestaurantStatus.suspended
      ⟨codes "bistro", codes "acme", codes "1.0.0", RestaurantStatus.active, false⟩
      ⟨none, some RestaurantStatus.active, none⟩
      [⟨codes "gone", codes "acme", codes "1.0.0", RestaurantStatus.deleted, true⟩,
       ⟨codes "bistro", codes "acme", codes "1.0.0", RestaurantStatus.pending, false⟩]
      rfl rfl (by decide) rfl rfl rfl rfl rfl
  exact ⟨by decide, h1, h2, h3,
    h5 ⟨codes "gone", codes "1.0.0", OrgStatus.deleted, true⟩ rfl,
    h8, h9, h10, h12, h13,
    h14 ⟨codes "gone", codes "acme", codes "1.0.0", RestaurantStatus.deleted, true⟩ rfl⟩

/-! ## C8: totality of classification -/

/-- **C8 (code bug).** `get_org_status` is total — a Ready condition whose
status string is none of true/false/unknown falls through to the trailing
checks and yields `"progressing"` — but the inline classification of
`list_restaurants` assigns `new_state` in no branch of that case: on the
batch's first such tenant the loop reads an unbound local (`NameError`, the
endpoint raises before the commit), and on a later tenant it silently
persists the *previous* tenant's stale classification. Shown at the failing
input `conditions = [Ready condition with empty status string]`. -/
theorem restaurant_classifier_not_total :
    restaurantClassify (.ok [⟨codes "Ready", [], []⟩]) (.ok []) = none
    ∧ get_org_status (.ok [⟨codes "Ready", [], []⟩]) (.ok []) = "progressing"
    ∧ listRestaurantsSync
        [⟨codes "r1", true, RestaurantStatus.pending,
          .classified (restaurantClassify (.ok [⟨codes "Ready", [], []⟩]) (.ok []))⟩]
      = .error ()
    ∧ listRestaurantsSync
        [⟨codes "r0", true, RestaurantStatus.pending, .classified (some .active)⟩,
         ⟨codes "r1", true, RestaurantStatus.pending,
          .classified (restaurantClassify (.ok [⟨codes "Ready", [], []⟩]) (.ok []))⟩]
      = .ok [RestaurantStatus.active, RestaurantStatus.active] :=
  ⟨rfl, rfl, rfl, rfl⟩

/-! ## C9: value range of `get_org_status` -/

theorem hrClassify_cases (conds : List Condition) :
    hrClassify conds = none ∨ hrClassify conds = some "running"
    ∨ hrClassify conds = some "progressing" ∨ hrClassify conds = some "error" := by
  unfold hrClassify
  rcases findCondition conds (codes "Ready") with _ | c <;>
    simp only [] <;> split_ifs <;> simp

theorem podFallback_cases (pods : List Pod) :
    podFallback pods = "running" ∨ podFallback pods = "progressing"
    ∨ podFallback pods = "error" := by
  unfold podFallback
  split_ifs <;> simp

/-- **C9.** For every pair of cluster-read outcomes, `get_org_status`
returns one of the three strings `"running"`, `"progressing"`, `"error"`;
consequently the router's mapping of a `get_org_status` value never produces
`suspended` — the per-row new status computed from a returned value is
`active`, `pending` or `error` — while the row of a *throwing* query is
mapped to `suspended` by the router's own exception handler. -/
theorem get_org_status_range (hr : Except Nat (List Condition))
    (pr : Except Unit (List Pod)) (nm : List Nat) (st : OrgStatus) :
    (get_org_status hr pr = "running" ∨ get_org_status hr pr = "progressing"
     ∨ get_org_status hr pr = "error")
    ∧ (orgRowNewStatus ⟨nm, st, .ok (get_org_status hr pr)⟩ = OrgStatus.active
       ∨ orgRowNewStatus ⟨nm, st, .ok (get_org_status hr pr)⟩ = OrgStatus.pending
       ∨ orgRowNewStatus ⟨nm, st, .ok (get_org_status hr pr)⟩ = OrgStatus.error)
    ∧ orgRowNewStatus ⟨nm, st, .error ()⟩ = OrgStatus.suspended := by
  have hrange : get_org_status hr pr = "running" ∨ get_org_status hr pr = "progressing"
      ∨ get_org_status hr pr = "error" := by
    rcases hr with e | conds
    · rcases pr with u | pods
      · simp [get_org_status]
      · simpa [get_org_status] using podFallback_cases pods
    · have hred : get_org_status (.ok conds) pr =
          (match hrClassify conds with
           | some s => s
           | none =>
             match pr with
             | .ok pods => podFallback pods
             | .error _ => "error") := rfl
      rw [hred]
      rcases hrClassify_cases conds with h | h | h | h <;> rw [h]
      · rcases pr with u | pods
        · simp
        · simpa using podFallback_cases pods
      · simp
      · simp
      · simp
  refine ⟨hrange, ?_, rfl⟩
  rcases hrange with h | h | h <;> rw [show orgRowNewStatus ⟨nm, st, .ok (get_org_status hr pr)⟩ = mapClusterStateToOrgStatus (get_org_status hr pr) from rfl, h] <;> decide

/-! ## C10: name normalization -/

theorem lowerN_idem (n : Nat) : lowerN (lowerN n) = lowerN n := by
  unfold lowerN
  split_ifs <;> omega

theorem lowerCodes_idem (s : List Nat) : lowerCodes (lowerCodes s) = lowerCodes s := by
  induction s with
  | nil => rfl
  | cons a t ih =>
    simp only [lowerCodes, List.map_cons] at ih ⊢
    rw [lowerN_idem]
    exact congrArg _ ih

theorem isWsN_lowerN (n : Nat) (h : isWsN n = false) : isWsN (lowerN n) = false := by
  simp only [isWsN, lowerN, Bool.or_eq_false_iff, decide_eq_false_iff_not] at h ⊢
  split_ifs <;> omega

theorem wsSubGo_not_ws (s : List Nat) : ∀ b, ∀ x ∈ wsSubGo b s, isWsN x = false := by
  induction s with
  | nil => intro b x hx; simp [wsSubGo] at hx
  | cons c rest ih =>
    intro b x hx
    by_cases hc : isWsN c
    · cases b
      · simp only [wsSubGo, hc, if_true, Bool.false_eq_true, if_false,
          List.mem_cons] at hx
        rcases hx with rfl | hx
        · decide
        · exact ih true x hx
      · simp only [wsSubGo, hc, if_true] at hx
        exact ih true x hx
    · simp only [wsSubGo, hc, Bool.false_eq_true, if_false, List.mem_cons] at hx
      rcases hx with rfl | hx
      · simpa using hc
      · exact ih false x hx

theorem wsSubGo_of_not_ws (s : List Nat) (h : ∀ x ∈ s, isWsN x = false) :
    ∀ b, wsSubGo b s = s := by
  induction s with
  | nil => intro b; rfl
  | cons c rest ih =>
    intro b
    have hc : isWsN c = false := h c (List.mem_cons_self c rest)
    simp only [wsSubGo, hc, Bool.false_eq_true, if_false]
    exact congrArg _ (ih (fun x hx => h x (List.mem_cons_of_mem c hx)) false)

theorem dropWhile_of_not_ws (s : List Nat) (h : ∀ x ∈ s, isWsN x = false) :
    s.dropWhile isWsN = s := by
  cases s with
  | nil => rfl
  | cons c rest =>
    have hc : isWsN c = false := h c (List.mem_cons_self c rest)
    simp [List.dropWhile_cons, hc]

theorem stripWs_of_not_ws (s : List Nat) (h : ∀ x ∈ s, isWsN x = false) :
    stripWs s = s := by
  unfold stripWs
  rw [dropWhile_of_not_ws s h,
    dropWhile_of_not_ws s.reverse (fun x hx => h x (List.mem_reverse.mp hx)),
    List.reverse_reverse]

theorem normalize_name_not_ws (s : List Nat) :
    ∀ x ∈ normalize_name s, isWsN x = false := by
  intro x hx
  unfold normalize_name at hx
  by_cases h0 : s = []
  · simp [h0] at hx
  · simp only [h0, if_false, lowerCodes, List.mem_map] at hx
    obtain ⟨y, hy, rfl⟩ := hx
    exact isWsN_lowerN y (wsSubGo_not_ws (stripWs s) false y hy)

theorem wsSub_of_not_ws (s : List Nat) (h : ∀ x ∈ s, isWsN x = false) :
    wsSub s = s :=
  wsSubGo_of_not_ws s h false

theorem normalize_name_of_ne (s : List Nat) (h : s ≠ []) :
    normalize_name s = lowerCodes (wsSub (stripWs s)) := by
  unfold normalize_name
  rw [if_neg h]

theorem normalize_name_idem (s : List Nat) :
    normalize_name (normalize_name s) = normalize_name s := by
  by_cases h0 : normalize_name s = []
  · rw [h0]; rfl
  · have hnw := normalize_name_not_ws s
    rw [normalize_name_of_ne (normalize_name s) h0, stripWs_of_not_ws _ hnw,
      wsSub_of_not_ws _ hnw]
    by_cases hs : s = []
    · subst hs
      exact absurd rfl h0
    · rw [normalize_name_of_ne s hs]
      exact lowerCodes_idem _

theorem create_restaurant_name (org : OrgRec) (cp : RestCreatePayload)
    (applyOk : Bool) (hod : org.is_deleted = false) :
    ∀ rec ∈ (create_restaurant org cp applyOk).2.1,
      rec.name = normalize_name cp.name := by
  intro rec hrec
  cases applyOk <;> simp [create_restaurant, hod] at hrec
  · rcases hrec with rfl | rfl <;> rfl
  · subst hrec; rfl

theorem update_restaurant_name (r : RestRec) (up : RestUpdatePayload)
    (applyOk : Bool) (n : List Nat)
    (hrd : r.is_deleted = false) (hn : up.name = some n) :
    ∀ rec ∈ (update_restaurant r up applyOk).2.1,
      rec.name = normalize_name n := by
  intro rec hrec
  rcases hpv : up.version with _ | v
  · rcases hps : up.status with _ | stt <;>
      simp [update_restaurant, hrd, hn, hpv, hps] at hrec <;>
      (subst hrec; rfl)
  · by_cases hveq : v = r.version
    · rcases hps : up.status with _ | stt <;>
        simp [update_restaurant, hrd, hn, hpv, hps, hveq] at hrec <;>
        (subst hrec; rfl)
    · rcases hps : up.status with _ | stt <;>
        cases applyOk <;>
          simp [update_restaurant, hrd, hn, hpv, hps, hveq] at hrec
      · rcases hrec with rfl | rfl <;> rfl
      · subst hrec; rfl
      · rcases hrec with rfl | rfl <;> rfl
      · subst hrec; rfl

/-- **C10.** Restaurant names are normalized on both create and update —
strip, collapse whitespace runs to `-`, lowercase — the normalization is
idempotent, and therefore every committed restaurant record carries a name
that is a fixed point of normalization. -/
theorem restaurant_name_normalized
    (s : List Nat) (org : OrgRec) (cp : RestCreatePayload)
    (r : RestRec) (up : RestUpdatePayload) (n : List Nat) (applyOk : Bool)
    (hod : org.is_deleted = false) (hrd : r.is_deleted = false)
    (hn : up.name = some n) :
    normalize_name (normalize_name s) = normalize_name s
    ∧ (∀ rec ∈ (create_restaurant org cp applyOk).2.1,
        rec.name = normalize_name cp.name ∧ normalize_name rec.name = rec.name)
    ∧ (∀ rec ∈ (update_restaurant r up applyOk).2.1,
        rec.name = normalize_name n ∧ normalize_name rec.name = rec.name) := by
  refine ⟨normalize_name_idem s, ?_, ?_⟩
  · intro rec hrec
    have h1 := create_restaurant_name org cp applyOk hod rec hrec
    exact ⟨h1, by rw [h1]; exact normalize_name_idem cp.name⟩
  · intro rec hrec
    have h1 := update_restaurant_name r up applyOk n hrd hn rec hrec
    exact ⟨h1, by rw [h1]; exact normalize_name_idem n⟩

/-- Witness for C10 at the name `"  Fancy   Bistro  "`. -/
theorem restaurant_name_normalized_witness :
    normalize_name (codes "  Fancy   Bistro  ") = codes "fancy-bistro"
    ∧ normalize_name (normalize_name (codes "  Fancy   Bistro  "))
      = normalize_name (codes "  Fancy   Bistro  ")
    ∧ (∀ rec ∈ (update_restaurant
          ⟨codes "bistro", codes "acme", codes "1.0.0", RestaurantStatus.pending, false⟩
          ⟨some (codes "  Fancy   Bistro  "), none, none⟩ true).2.1,
        rec.name = normalize_name (codes "  Fancy   Bistro  ")) := by
  have h := restaurant_name_normalized (codes "  Fancy   Bistro  ")
    ⟨codes "acme", codes "1.0.0", OrgStatus.pending, false⟩
    ⟨codes "b", none, none⟩
    ⟨codes "bistro", codes "acme", codes "1.0.0", RestaurantStatus.pending, false⟩
    ⟨some (codes "  Fancy   Bistro  "), none, none⟩
    (codes "  Fancy   Bistro  ") true rfl rfl rfl
  exact ⟨by decide, h.1, fun rec hm => (h.2.2 rec hm).1⟩

end ControlPanel
